import Mathlib

/-!
Verification of PyOxidizer's embedded-interpreter configuration resolver
(`pyembed/src/config.rs`) and its Starlark target build engine
(`pyoxidizer/src/starlark/eval.rs`), via a shallow embedding.

Rust `PathBuf` / `OsString` values are modelled as `String` (the code only
ever manipulates them through their textual display form). Fallible Rust
functions returning `Result` are modelled with `Except String`. Process
state read by the code (`std::env::current_exe`, `std::env::args_os`,
`std::fs::create_dir_all` success) is passed explicitly.
-/

namespace PyOxidizer

/-! ## String replacement

Model of Rust `str::replace`: replace every non-overlapping occurrence of
`pat`, scanning left to right. Written with explicit fuel (the length of
the scanned list) so that it is structurally recursive and kernel-reducible;
the fuel never runs out because each step consumes at least one character.
The `pat ≠ []` guard is irrelevant to the code, which only ever replaces the
non-empty literal pattern `"$ORIGIN"`. -/

def replaceChars (pat rep : List Char) : Nat → List Char → List Char
  | 0, l => l
  | _, [] => []
  | fuel+1, c :: rest =>
    if pat ≠ [] ∧ pat.isPrefixOf (c :: rest) then
      rep ++ replaceChars pat rep fuel (List.drop pat.length (c :: rest))
    else
      c :: replaceChars pat rep fuel rest

/-- Model of Rust `String::replace(self, pat, rep)`. -/
def strReplace (s pat rep : String) : String :=
  String.mk (replaceChars pat.toList rep.toList s.toList.length s.toList)

/-! ## Paths -/

/-- Split a character list at every occurrence of `sep` (the splitter
underlying `pathParent`; written structurally so it kernel-reduces). -/
def splitOnChar (sep : Char) : List Char → List (List Char)
  | [] => [[]]
  | c :: rest =>
    if c = sep then [] :: splitOnChar sep rest
    else
      match splitOnChar sep rest with
      | [] => [[c]]
      | h :: t => (c :: h) :: t

/-- Join path components with `/` separators. -/
def joinSlash : List String → String
  | [] => ""
  | [x] => x
  | x :: y :: xs => x ++ "/" ++ joinSlash (y :: xs)

/-- Model of Rust `Path::parent()` on Unix-style textual paths: the path
minus its final component; `none` when the path is empty or consists only
of the root. -/
def pathParent (p : String) : Option String :=
  let cs := p.toList
  let isAbs := cs.head? = some '/'
  let comps := ((splitOnChar '/' cs).map String.mk).filter (fun c => c ≠ "")
  match comps with
  | [] => none
  | [_] => if isAbs then some "/" else some ""
  | _ => some ((if isAbs then "/" else "") ++ joinSlash comps.dropLast)

/-! ## `pyembed/src/config.rs`: configuration data model -/

/-- The fields of the low-level `PythonInterpreterConfig` (from the
`python-packaging` crate) that `config.rs` reads or rewrites: the explicit
argument vector and the module search paths. All its other fields are
carried through `resolve` untouched via Rust struct-update syntax and are
omitted from the model. -/
structure PythonInterpreterConfig where
  argv : Option (List String)
  module_search_paths : Option (List String)
  deriving Repr, DecidableEq

/-- `OxidizedPythonInterpreterConfig`, restricted to the fields that
`resolve`, `resolve_sys_argv` and `resolve_sys_argvb` read or write:
`exe`, `origin`, `interpreter_config`, `argv` and `tcl_library`. The
remaining builder fields (importer flags, packed resources, etc.) pass
through `resolve` unchanged via `..self` and play no role in the claims. -/
structure OxidizedPythonInterpreterConfig where
  exe : Option String
  origin : Option String
  interpreter_config : PythonInterpreterConfig
  argv : Option (List String)
  tcl_library : Option String
  deriving Repr, DecidableEq

/-- The process state read by `config.rs`: the result of
`std::env::current_exe()` (`none` models the `Err` case) and the live
argument vector `std::env::args_os()`. -/
structure ProcessEnv where
  current_exe : Option String
  args_os : List String

/-- `ResolvedOxidizedPythonInterpreterConfig`: a wrapper around a
configuration whose fields have been resolved. -/
structure ResolvedOxidizedPythonInterpreterConfig where
  inner : OxidizedPythonInterpreterConfig
  deriving Repr, DecidableEq

/-- The `exe` step of `resolve`: the builder's `exe` if set, else the
current process executable, whose unavailability is the fatal error
`"could not obtain current executable"`. -/
def resolveExe (env : ProcessEnv) (self : OxidizedPythonInterpreterConfig) :
    Except String String :=
  match self.exe with
  | some exe => Except.ok exe
  | none =>
    match env.current_exe with
    | some e => Except.ok e
    | none => Except.error "could not obtain current executable"

/-- The `origin` step of `resolve`: the builder's `origin` if set, else the
parent directory of the resolved `exe`, whose absence is the fatal error
`"unable to obtain current executable parent directory"`. -/
def resolveOrigin (exe : String) (self : OxidizedPythonInterpreterConfig) :
    Except String String :=
  match self.origin with
  | some origin => Except.ok origin
  | none =>
    match pathParent exe with
    | some p => Except.ok p
    | none => Except.error "unable to obtain current executable parent directory"

/-- The record built at the end of `resolve`: `exe` and `origin` made
concrete, `$ORIGIN` replaced by the origin's textual path in the module
search paths and the tcl library path, every other field carried over
(`..self` in the Rust). -/
def resolveFields (self : OxidizedPythonInterpreterConfig) (exe origin : String) :
    ResolvedOxidizedPythonInterpreterConfig :=
  ⟨{ self with
     exe := some exe
     origin := some origin
     interpreter_config :=
       { self.interpreter_config with
         module_search_paths :=
           match self.interpreter_config.module_search_paths with
           | some paths => some (paths.map (fun p => strReplace p "$ORIGIN" origin))
           | none => none }
     tcl_library :=
       match self.tcl_library with
       | some tcl_library => some (strReplace tcl_library "$ORIGIN" origin)
       | none => none }⟩

/-- `OxidizedPythonInterpreterConfig::resolve`. Consumes the builder and
produces a resolved configuration or an error message (the Rust function's
`&'static str` error). The two `?`-propagated fallible steps are
`resolveExe` and `resolveOrigin`. -/
def OxidizedPythonInterpreterConfig.resolve (env : ProcessEnv)
    (self : OxidizedPythonInterpreterConfig) :
    Except String ResolvedOxidizedPythonInterpreterConfig :=
  match resolveExe env self with
  | Except.error e => Except.error e
  | Except.ok exe =>
    match resolveOrigin exe self with
    | Except.error e => Except.error e
    | Except.ok origin => Except.ok (resolveFields self exe origin)

/-- `OxidizedPythonInterpreterConfig::resolve_sys_argv`. `none` means
"leave `PyConfig.argv` alone". -/
def OxidizedPythonInterpreterConfig.resolve_sys_argv (env : ProcessEnv)
    (self : OxidizedPythonInterpreterConfig) : Option (List String) :=
  if self.interpreter_config.argv.isSome then
    none
  else if let some args := self.argv then
    some args
  else
    some env.args_os

/-- `OxidizedPythonInterpreterConfig::resolve_sys_argvb`. Always yields a
concrete vector. -/
def OxidizedPythonInterpreterConfig.resolve_sys_argvb (env : ProcessEnv)
    (self : OxidizedPythonInterpreterConfig) : List String :=
  if let some args := self.interpreter_config.argv then
    args
  else if let some args := self.argv then
    args
  else
    env.args_os

/-- `ResolvedOxidizedPythonInterpreterConfig::exe`. The Rust accessor is
`self.inner.exe.as_ref().expect("exe should have a value")`; the `none`
case of this model corresponds to the `expect` panic. -/
def ResolvedOxidizedPythonInterpreterConfig.exe
    (self : ResolvedOxidizedPythonInterpreterConfig) : Option String :=
  self.inner.exe

/-- `ResolvedOxidizedPythonInterpreterConfig::origin`. The Rust accessor is
`self.inner.origin.as_ref().expect("origin should have a value")`; the
`none` case of this model corresponds to the `expect` panic. -/
def ResolvedOxidizedPythonInterpreterConfig.origin
    (self : ResolvedOxidizedPythonInterpreterConfig) : Option String :=
  self.inner.origin

/-! ## `pyoxidizer/src/starlark/eval.rs`: target build engine -/

/-- `ResolvedTarget` from the `starlark-dialect-build-targets` crate.
Modelled from the spec: the crate is part of the PyOxidizer repository but
its source is not under src/; the spec describes a ResolvedTarget as one or
more artifact locations plus an optional run entrypoint, a callable with a
success/failure outcome. `run_entry = none` means the target is not
runnable; `some r` holds the outcome the entrypoint produces when invoked. -/
structure ResolvedTarget where
  artifacts : List String
  run_entry : Option (Except String Unit)
  deriving Repr

/-- `ResolvedTarget::run`. Modelled from the spec: invokes the artifact's
run entrypoint if present, else fails (the target is not runnable); run
failures propagate verbatim. -/
def ResolvedTarget.run (t : ResolvedTarget) : Except String Unit :=
  match t.run_entry with
  | some r => r
  | none => Except.error "NotRunnable"

/-- The data of `PyOxidizerBuildContext` derived per build invocation
(the `logger` field is omitted: it is opaque to the build logic). -/
structure PyOxidizerBuildContextData where
  host_triple : String
  target_triple : String
  release : Bool
  opt_level : String
  output_path : String
  deriving Repr, DecidableEq

/-- A Starlark value bound to a target: its runtime type tag (the string
returned by `Value::get_type()`) and the artifact-kind build handler it
carries. The handlers themselves (`FileManifestValue::build`, etc.) are
external collaborators, so the handler is an opaque function of the build
context. -/
structure StarlarkValue where
  type_tag : String
  build_fn : PyOxidizerBuildContextData → Except String ResolvedTarget

/-- `BuildTarget` from the `starlark-dialect-build-targets` crate, with the
two fields `eval.rs` reads and writes: the resolved-but-unbuilt Starlark
value, and the cached built target. -/
structure BuildTarget where
  resolved_value : Option StarlarkValue
  built_target : Option ResolvedTarget

/-- The evaluation state visible to `eval.rs`: the target registry and
default target of the `EnvironmentContext` (modelled from the spec as an
insertion-ordered name-to-target mapping with unique names, since the
crate's source is not under src/), the explicitly requested target list,
the build parameters of `PyOxidizerEnvironmentContext`, and an oracle
giving the success of `std::fs::create_dir_all` per path. -/
structure EvalState where
  targets : List (String × BuildTarget)
  default_target : Option String
  resolve_targets : Option (List String)
  build_path : String
  build_host_triple : String
  build_target_triple : String
  build_release : Bool
  build_opt_level : String
  mkdir_ok : String → Bool

/-- `EnvironmentContext::get_target`. Modelled from the spec: a lookup by
name in the registry. -/
def getTarget (s : EvalState) (name : String) : Option BuildTarget :=
  (s.targets.find? (fun p => p.1 == name)).map (fun p => p.2)

/-- The registry write performed by
`context.get_target_mut(target).unwrap().built_target = Some(..)`: cache
the built target on the named registry entry. -/
def setBuilt (s : EvalState) (name : String) (rt : ResolvedTarget) : EvalState :=
  { s with
    targets := s.targets.map (fun p =>
      if p.1 == name then (p.1, { p.2 with built_target := some rt }) else p) }

/-- `EnvironmentContext::targets_to_resolve`. Modelled from the spec: the
crate's source is not under src/. Returns the explicit list requested by
the caller, or, if none was requested, the singleton list containing the
default target; fails with `NoDefaultTarget` if neither is available. -/
def targetsToResolve (s : EvalState) : Except String (List String) :=
  match s.resolve_targets with
  | some ts => Except.ok ts
  | none =>
    match s.default_target with
    | some t => Except.ok [t]
    | none => Except.error "NoDefaultTarget"

/-- The per-target output directory computed in `build_resolved_target`:
`build_path/target-triple/{release|debug}/target-name`. -/
def outputPath (s : EvalState) (target : String) : String :=
  s.build_path ++ "/" ++ s.build_target_triple ++ "/"
    ++ (if s.build_release then "release" else "debug") ++ "/" ++ target

/-- The dispatch on `resolved_value.get_type()` in `build_resolved_target`:
for the three recognized type tags the artifact-kind build handler runs;
any other tag is an error without invoking a handler. The second component
counts handler invocations. -/
def dispatchBuild (v : StarlarkValue) (ctx : PyOxidizerBuildContextData) :
    Except String ResolvedTarget × Nat :=
  match v.type_tag with
  | "FileManifest" => (v.build_fn ctx, 1)
  | "PythonExecutable" => (v.build_fn ctx, 1)
  | "PythonEmbeddedResources" => (v.build_fn ctx, 1)
  | _ => (Except.error "could not determine type of target", 0)

/-- The `PyOxidizerBuildContext` value constructed in
`build_resolved_target` from the environment context's build parameters
and the per-target output path. -/
def buildCtx (s : EvalState) (target : String) : PyOxidizerBuildContextData :=
  { host_triple := s.build_host_triple
    target_triple := s.build_target_triple
    release := s.build_release
    opt_level := s.build_opt_level
    output_path := outputPath s target }

/-- `EvaluationContext::build_resolved_target`. Returns the build outcome,
the state after the call, and the number of artifact-kind build handler
invocations the call performed. -/
def buildResolvedTarget (s : EvalState) (target : String) :
    Except String ResolvedTarget × EvalState × Nat :=
  match getTarget s target with
  | none => (Except.error ("target " ++ target ++ " is not registered"), s, 0)
  | some t =>
    match t.built_target with
    | some cached => (Except.ok cached, s, 0)
    | none =>
      match t.resolved_value with
      | none => (Except.error ("target " ++ target ++ " is not resolved"), s, 0)
      | some v =>
        if s.mkdir_ok (outputPath s target) then
          match dispatchBuild v (buildCtx s target) with
          | (Except.error e, n) => (Except.error e, s, n)
          | (Except.ok rt, n) => (Except.ok rt, setBuilt s target rt, n)
        else
          (Except.error "creating output path", s, 0)

/-- `EvaluationContext::run_resolved_target`: build the target, then run
it. The third component records whether a run entrypoint was invoked. -/
def runResolvedTarget (s : EvalState) (target : String) :
    Except String Unit × EvalState × Bool :=
  match buildResolvedTarget s target with
  | (Except.error e, s1, _) => (Except.error e, s1, false)
  | (Except.ok rt, s1, _) => (rt.run, s1, rt.run_entry.isSome)

/-! ## Concrete inputs used by the witness theorems -/

/-- A process whose executable is `/usr/bin/app` and whose live arguments
are `["prog", "live"]`. -/
def envA : ProcessEnv :=
  { current_exe := some "/usr/bin/app", args_os := ["prog", "live"] }

/-- A process for which `std::env::current_exe()` fails. -/
def envNoExe : ProcessEnv :=
  { current_exe := none, args_os := ["prog", "live"] }

/-- The all-unset configuration builder (the fields modelled here all
default to `None` in `Default::default()`). -/
def cfgDefault : OxidizedPythonInterpreterConfig :=
  { exe := none
    origin := none
    interpreter_config := { argv := none, module_search_paths := none }
    argv := none
    tcl_library := none }

/-- The resolution of `cfgDefault` under `envA`. -/
def resDefault : ResolvedOxidizedPythonInterpreterConfig :=
  ⟨{ exe := some "/usr/bin/app"
     origin := some "/usr/bin"
     interpreter_config := { argv := none, module_search_paths := none }
     argv := none
     tcl_library := none }⟩

/-- A builder whose executable is the filesystem root, which has no
parent directory. -/
def cfgRootExe : OxidizedPythonInterpreterConfig :=
  { cfgDefault with exe := some "/" }

/-- A builder with `$ORIGIN`-templated module search paths and tcl
library, with `origin` pinned to `/opt/app`. -/
def cfgTemplated : OxidizedPythonInterpreterConfig :=
  { exe := some "/opt/app/myapp"
    origin := some "/opt/app"
    interpreter_config :=
      { argv := none
        module_search_paths := some ["$ORIGIN/lib", "$ORIGIN/../x"] }
    argv := none
    tcl_library := some "$ORIGIN/tcl8.6" }

/-- The resolution of `cfgTemplated` (under any environment: both its
`exe` and `origin` are set). -/
def resTemplated : ResolvedOxidizedPythonInterpreterConfig :=
  ⟨{ exe := some "/opt/app/myapp"
     origin := some "/opt/app"
     interpreter_config :=
       { argv := none
         module_search_paths := some ["/opt/app/lib", "/opt/app/../x"] }
     argv := none
     tcl_library := some "/opt/app/tcl8.6" }⟩

/-- A builder where both the low-level argument vector and the builder
override are set. -/
def cfgArgv : OxidizedPythonInterpreterConfig :=
  { cfgDefault with
    interpreter_config := { argv := some ["a"], module_search_paths := none }
    argv := some ["b"] }

/-- A `ResolvedTarget` with one artifact and no run entrypoint. -/
def sampleRT : ResolvedTarget :=
  { artifacts := ["out"], run_entry := none }

/-- A Starlark value of type `FileManifest` whose build handler always
succeeds with `sampleRT`. -/
def sampleValue : StarlarkValue :=
  { type_tag := "FileManifest", build_fn := fun _ => Except.ok sampleRT }

/-- A registered, resolved, not-yet-built target bound to `sampleValue`. -/
def targetA : BuildTarget :=
  { resolved_value := some sampleValue, built_target := none }

/-- An evaluation state with the single registered target `a` (which is
also the default target), no explicitly requested targets, and a
filesystem on which directory creation succeeds. -/
def sampleState : EvalState :=
  { targets := [("a", targetA)]
    default_target := some "a"
    resolve_targets := none
    build_path := "build"
    build_host_triple := "x86_64-unknown-linux-gnu"
    build_target_triple := "x86_64-unknown-linux-gnu"
    build_release := false
    build_opt_level := "0"
    mkdir_ok := fun _ => true }

/-- `sampleState` on a filesystem where every directory creation fails. -/
def sampleStateNoIO : EvalState :=
  { sampleState with mkdir_ok := fun _ => false }

/-! ## Theorems: interpreter configuration resolver -/

/-- Inversion of a successful `resolve`: it is exactly the composition of
the `exe` step, the `origin` step, and the final field rewrite. -/
theorem resolve_ok_iff (env : ProcessEnv) (cfg : OxidizedPythonInterpreterConfig)
    (r : ResolvedOxidizedPythonInterpreterConfig) :
    cfg.resolve env = Except.ok r ↔
      ∃ exe origin, resolveExe env cfg = Except.ok exe ∧
        resolveOrigin exe cfg = Except.ok origin ∧
        r = resolveFields cfg exe origin := by
  unfold OxidizedPythonInterpreterConfig.resolve
  cases hE : resolveExe env cfg with
  | error e => simp
  | ok exe =>
    cases hO : resolveOrigin exe cfg with
    | error e => simp [hO]
    | ok origin => simp [hO, eq_comm]

/-- C2: `resolve_sys_argv` yields "no override" (`none`) when the
low-level configuration's argument vector is set, else the builder's
override when set, else the live process arguments; `resolve_sys_argvb`
unconditionally yields a concrete vector: the low-level explicit vector,
else the builder override, else the live process arguments. -/
theorem resolve_sys_argv_argvb_spec (env : ProcessEnv)
    (cfg : OxidizedPythonInterpreterConfig) :
    cfg.resolve_sys_argv env
      = (if cfg.interpreter_config.argv.isSome then none
         else some (cfg.argv.getD env.args_os))
    ∧ cfg.resolve_sys_argvb env
      = cfg.interpreter_config.argv.getD (cfg.argv.getD env.args_os) := by
  unfold OxidizedPythonInterpreterConfig.resolve_sys_argv
    OxidizedPythonInterpreterConfig.resolve_sys_argvb
  cases cfg.interpreter_config.argv <;> cases cfg.argv <;> simp

/-- C10: whenever `resolve_sys_argv` returns `some v`, `resolve_sys_argvb`
on the same builder returns `v`; whenever `resolve_sys_argv` returns
`none`, `resolve_sys_argvb` returns the low-level configuration's explicit
argument vector. -/
theorem argv_argvb_agreement (env : ProcessEnv)
    (cfg : OxidizedPythonInterpreterConfig) :
    (∀ v, cfg.resolve_sys_argv env = some v → cfg.resolve_sys_argvb env = v)
    ∧ (cfg.resolve_sys_argv env = none →
        cfg.interpreter_config.argv = some (cfg.resolve_sys_argvb env)) := by
  unfold OxidizedPythonInterpreterConfig.resolve_sys_argv
    OxidizedPythonInterpreterConfig.resolve_sys_argvb
  cases cfg.interpreter_config.argv <;> cases cfg.argv <;> simp

/-- Witness for C10 at concrete inputs: with the low-level vector set to
`["a"]` the byte-form query returns it while the text-form query declines;
with both vectors unset both queries agree on the live arguments. -/
theorem argv_argvb_agreement_witness :
    cfgArgv.interpreter_config.argv
      = some (cfgArgv.resolve_sys_argvb envA)
    ∧ cfgDefault.resolve_sys_argvb envA = ["prog", "live"] :=
  ⟨(argv_argvb_agreement envA cfgArgv).2 rfl,
   (argv_argvb_agreement envA cfgDefault).1 ["prog", "live"] rfl⟩

/-- C9: the accessors `exe()` and `origin()` on any configuration obtained
from a successful `resolve` are total — both fields are concrete, so the
internal `expect` branches (the `none` case of the model) are
unreachable. -/
theorem resolved_accessors_total (env : ProcessEnv)
    (cfg : OxidizedPythonInterpreterConfig)
    (r : ResolvedOxidizedPythonInterpreterConfig)
    (h : cfg.resolve env = Except.ok r) :
    r.exe.isSome = true ∧ r.origin.isSome = true := by
  obtain ⟨exe, origin, -, -, rfl⟩ := (resolve_ok_iff env cfg r).1 h
  constructor <;> rfl

/-- Witness for C9: the default builder resolves under `envA` and the
accessors of the result are defined. -/
theorem resolved_accessors_total_witness :
    resDefault.exe.isSome = true ∧ resDefault.origin.isSome = true :=
  resolved_accessors_total envA cfgDefault resDefault rfl

/-- C4: `resolve` keeps a set `exe` as given and otherwise uses the current
process executable, failing fatally when it is unavailable; it keeps a set
`origin` as given and otherwise uses the parent directory of the resolved
`exe`, failing fatally when the exe has no parent. -/
theorem resolve_exe_origin_defaulting (env : ProcessEnv)
    (cfg : OxidizedPythonInterpreterConfig) :
    (∀ e, cfg.exe = some e →
      ∀ r, cfg.resolve env = Except.ok r → r.inner.exe = some e)
    ∧ (cfg.exe = none → env.current_exe = none →
        cfg.resolve env = Except.error "could not obtain current executable")
    ∧ (cfg.exe = none → ∀ e, env.current_exe = some e →
        ∀ r, cfg.resolve env = Except.ok r → r.inner.exe = some e)
    ∧ (∀ o, cfg.origin = some o →
        ∀ r, cfg.resolve env = Except.ok r → r.inner.origin = some o)
    ∧ (cfg.origin = none →
        ∀ r e, cfg.resolve env = Except.ok r → r.inner.exe = some e →
          r.inner.origin = pathParent e)
    ∧ (cfg.origin = none → ∀ e, resolveExe env cfg = Except.ok e →
        pathParent e = none →
        cfg.resolve env
          = Except.error "unable to obtain current executable parent directory") := by
  refine ⟨?_, ?_, ?_, ?_, ?_, ?_⟩
  · intro e he r hr
    obtain ⟨exe, origin, hE, hO, rfl⟩ := (resolve_ok_iff env cfg r).1 hr
    have : e = exe := by simpa [resolveExe, he] using hE
    subst this
    rfl
  · intro h1 h2
    simp [OxidizedPythonInterpreterConfig.resolve, resolveExe, h1, h2]
  · intro h1 e h2 r hr
    obtain ⟨exe, origin, hE, hO, rfl⟩ := (resolve_ok_iff env cfg r).1 hr
    have : e = exe := by simpa [resolveExe, h1, h2] using hE
    subst this
    rfl
  · intro o ho r hr
    obtain ⟨exe, origin, hE, hO, rfl⟩ := (resolve_ok_iff env cfg r).1 hr
    have : o = origin := by simpa [resolveOrigin, ho] using hO
    subst this
    rfl
  · intro h1 r e hr he
    obtain ⟨exe, origin, hE, hO, rfl⟩ := (resolve_ok_iff env cfg r).1 hr
    have hxe : exe = e := by simpa [resolveFields] using he
    subst hxe
    rw [resolveOrigin, h1] at hO
    cases hP : pathParent exe with
    | none => rw [hP] at hO; cases hO
    | some p =>
      rw [hP] at hO
      cases hO
      rfl
  · intro h1 e hE hP
    unfold OxidizedPythonInterpreterConfig.resolve
    rw [hE]
    simp [resolveOrigin, h1, hP]

/-- Witness for C4: the default builder resolves under `envA` to the
current executable and its parent directory; an unavailable executable and
a parentless executable each produce the fatal error. -/
theorem resolve_exe_origin_defaulting_witness :
    OxidizedPythonInterpreterConfig.resolve envA cfgDefault = Except.ok resDefault
    ∧ resDefault.inner.exe = some "/usr/bin/app"
    ∧ resDefault.inner.origin = pathParent "/usr/bin/app"
    ∧ OxidizedPythonInterpreterConfig.resolve envNoExe cfgDefault
        = Except.error "could not obtain current executable"
    ∧ OxidizedPythonInterpreterConfig.resolve envA cfgRootExe
        = Except.error "unable to obtain current executable parent directory" :=
  ⟨rfl,
   (resolve_exe_origin_defaulting envA cfgDefault).2.2.1 rfl "/usr/bin/app" rfl
     resDefault rfl,
   (resolve_exe_origin_defaulting envA cfgDefault).2.2.2.2.1 rfl resDefault
     "/usr/bin/app" rfl rfl,
   (resolve_exe_origin_defaulting envNoExe cfgDefault).2.1 rfl rfl,
   (resolve_exe_origin_defaulting envA cfgRootExe).2.2.2.2.2 rfl "/" rfl rfl⟩

/-- C3: a successful `resolve` rewrites every module search path and the
tcl library path by literally replacing the token `$ORIGIN` with the
resolved origin's textual path, with no path normalization. -/
theorem resolve_origin_template_literal (env : ProcessEnv)
    (cfg : OxidizedPythonInterpreterConfig)
    (r : ResolvedOxidizedPythonInterpreterConfig)
    (h : cfg.resolve env = Except.ok r)
    (o : String) (ho : r.inner.origin = some o) :
    r.inner.interpreter_config.module_search_paths
      = Option.map (fun ps => ps.map (fun p => strReplace p "$ORIGIN" o))
          cfg.interpreter_config.module_search_paths
    ∧ r.inner.tcl_library
      = Option.map (fun t => strReplace t "$ORIGIN" o) cfg.tcl_library := by
  obtain ⟨exe, origin, hE, hO, rfl⟩ := (resolve_ok_iff env cfg r).1 h
  have : origin = o := by simpa [resolveFields] using ho
  subst this
  constructor
  · cases h1 : cfg.interpreter_config.module_search_paths <;>
      simp [resolveFields, h1]
  · cases h1 : cfg.tcl_library <;> simp [resolveFields, h1]

/-- Witness for C3: with origin `/opt/app`, the search path `$ORIGIN/lib`
resolves to `/opt/app/lib` and `$ORIGIN/../x` to the unsimplified
`/opt/app/../x`; the tcl library `$ORIGIN/tcl8.6` to `/opt/app/tcl8.6`. -/
theorem resolve_origin_template_literal_witness :
    OxidizedPythonInterpreterConfig.resolve envA cfgTemplated
      = Except.ok resTemplated
    ∧ resTemplated.inner.interpreter_config.module_search_paths
        = some ["/opt/app/lib", "/opt/app/../x"]
    ∧ resTemplated.inner.tcl_library = some "/opt/app/tcl8.6" := by
  have h := resolve_origin_template_literal envA cfgTemplated resTemplated rfl
    "/opt/app" rfl
  exact ⟨rfl, h.1.trans rfl, h.2.trans rfl⟩

/-! ## Theorems: target build engine -/

/-- `find?` after the `setBuilt` rewrite: the found entry is the old entry
with its cached build set. -/
theorem find_setBuilt (name : String) (rt : ResolvedTarget)
    (l : List (String × BuildTarget)) :
    (l.map (fun p =>
        if p.1 == name then (p.1, { p.2 with built_target := some rt })
        else p)).find? (fun p => p.1 == name)
      = (l.find? (fun p => p.1 == name)).map
          (fun p => (p.1, { p.2 with built_target := some rt })) := by
  induction l with
  | nil => rfl
  | cons hd tl ih =>
    rcases hd with ⟨k, t⟩
    by_cases h : k = name
    · simp [List.find?_cons, h, -List.find?_map]
    · simp [List.find?_cons, h, -List.find?_map]
      simpa [-List.find?_map] using ih

/-- Looking up a name after caching its built target yields the original
entry with `built_target` set. -/
theorem getTarget_setBuilt (s : EvalState) (name : String) (rt : ResolvedTarget) :
    getTarget (setBuilt s name rt) name
      = (getTarget s name).map (fun t => { t with built_target := some rt }) := by
  unfold getTarget setBuilt
  rw [find_setBuilt]
  cases s.targets.find? (fun p => p.1 == name) <;> rfl

/-- A successful dispatch invokes the artifact-kind handler exactly once. -/
theorem dispatchBuild_ok_count (v : StarlarkValue)
    (c : PyOxidizerBuildContextData) (rt : ResolvedTarget) (n : Nat)
    (h : dispatchBuild v c = (Except.ok rt, n)) : n = 1 := by
  unfold dispatchBuild at h
  split at h <;> simp_all

/-- C8: building a name absent from the registry fails with the
target-not-registered error, whatever the rest of the registry holds, and
leaves the state and handler-invocation count untouched. -/
theorem build_unregistered_fails (s : EvalState) (name : String)
    (h : getTarget s name = none) :
    buildResolvedTarget s name
      = (Except.error ("target " ++ name ++ " is not registered"), s, 0) := by
  simp [buildResolvedTarget, h]

/-- Witness for C8 at a concrete registry. -/
theorem build_unregistered_fails_witness :
    buildResolvedTarget sampleState "nonexistent"
      = (Except.error "target nonexistent is not registered", sampleState, 0) :=
  build_unregistered_fails sampleState "nonexistent" rfl

/-- C6: when creating the per-target output directory fails, the build
returns the I/O error, performs no handler invocation, and returns the
state unchanged — the target's registry entry still holds
`built_target = none`, so it remains Resolved and retryable. -/
theorem build_io_error_leaves_resolved (s : EvalState) (target : String)
    (t : BuildTarget) (v : StarlarkValue)
    (hT : getTarget s target = some t) (hB : t.built_target = none)
    (hV : t.resolved_value = some v)
    (hM : s.mkdir_ok (outputPath s target) = false) :
    buildResolvedTarget s target
      = (Except.error "creating output path", s, 0) := by
  simp [buildResolvedTarget, hT, hB, hV, hM]

/-- Witness for C6: on a filesystem where directory creation fails, the
build of the registered, resolved target `a` errors and leaves the state
as it was. -/
theorem build_io_error_leaves_resolved_witness :
    buildResolvedTarget sampleStateNoIO "a"
      = (Except.error "creating output path", sampleStateNoIO, 0) :=
  build_io_error_leaves_resolved sampleStateNoIO "a" targetA sampleValue
    rfl rfl rfl rfl

/-- C7: `targets_to_resolve` returns the explicitly requested list, else
the singleton default target, and fails with `NoDefaultTarget` when
neither is available. -/
theorem targets_to_resolve_spec (s : EvalState) :
    (∀ ts, s.resolve_targets = some ts → targetsToResolve s = Except.ok ts)
    ∧ (s.resolve_targets = none → ∀ t, s.default_target = some t →
        targetsToResolve s = Except.ok [t])
    ∧ (s.resolve_targets = none → s.default_target = none →
        targetsToResolve s = Except.error "NoDefaultTarget") := by
  refine ⟨?_, ?_, ?_⟩ <;> intros <;> simp [targetsToResolve, *]

/-- Witness for C7: with no explicit request the default target `a` is the
one to resolve; with no default either, the operation fails. -/
theorem targets_to_resolve_spec_witness :
    targetsToResolve sampleState = Except.ok ["a"]
    ∧ targetsToResolve { sampleState with default_target := none }
        = Except.error "NoDefaultTarget" :=
  ⟨(targets_to_resolve_spec sampleState).2.1 rfl "a" rfl,
   (targets_to_resolve_spec { sampleState with default_target := none }).2.2
     rfl rfl⟩

/-- C1: after any successful build of a target, building it again returns
the same cached `ResolvedTarget`, leaves the state unchanged, and invokes
no artifact-kind build handler; when the first build found the target
unbuilt it invoked the handler exactly once, and when it found it already
built it returned the cache without invoking the handler or touching the
state. -/
theorem build_twice_memoized (s : EvalState) (name : String)
    (rt : ResolvedTarget) (s1 : EvalState) (n : Nat)
    (h : buildResolvedTarget s name = (Except.ok rt, s1, n)) :
    buildResolvedTarget s1 name = (Except.ok rt, s1, 0)
    ∧ (∀ t, getTarget s name = some t → t.built_target = none → n = 1)
    ∧ (∀ t rt0, getTarget s name = some t → t.built_target = some rt0 →
        rt = rt0 ∧ n = 0 ∧ s1 = s) := by
  cases hT : getTarget s name with
  | none => simp [buildResolvedTarget, hT] at h
  | some t =>
    cases hB : t.built_target with
    | some cached =>
      simp only [buildResolvedTarget, hT, hB, Prod.mk.injEq,
        Except.ok.injEq] at h
      obtain ⟨h1, h2, h3⟩ := h
      subst h1
      subst h2
      subst h3
      refine ⟨by simp [buildResolvedTarget, hT, hB], ?_, ?_⟩
      · intro t2 ht2 hb2
        injection ht2 with h4
        subst h4
        rw [hB] at hb2
        cases hb2
      · intro t2 rt0 ht2 hb0
        injection ht2 with h4
        subst h4
        rw [hB] at hb0
        injection hb0 with h5
        subst h5
        exact ⟨rfl, rfl, rfl⟩
    | none =>
      cases hV : t.resolved_value with
      | none => simp [buildResolvedTarget, hT, hB, hV] at h
      | some v =>
        cases hM : s.mkdir_ok (outputPath s name) with
        | false => simp [buildResolvedTarget, hT, hB, hV, hM] at h
        | true =>
          rcases hD : dispatchBuild v (buildCtx s name) with ⟨res, m⟩
          cases res with
          | error e => simp [buildResolvedTarget, hT, hB, hV, hM, hD] at h
          | ok rt2 =>
            simp only [buildResolvedTarget, hT, hB, hV, hM, hD, if_true,
              Prod.mk.injEq, Except.ok.injEq] at h
            obtain ⟨h1, h2, h3⟩ := h
            subst h1
            subst h3
            have hm1 : m = 1 :=
              dispatchBuild_ok_count v (buildCtx s name) rt2 m hD
            refine ⟨?_, ?_, ?_⟩
            · have hG : getTarget s1 name
                  = some { t with built_target := some rt2 } := by
                rw [← h2, getTarget_setBuilt, hT]
                rfl
              simp [buildResolvedTarget, hG]
            · intro t2 ht2 hb2
              exact hm1
            · intro t2 rt0 ht2 hb0
              injection ht2 with h4
              subst h4
              rw [hB] at hb0
              cases hb0

/-- Witness for C1: the first build of `a` succeeds with one handler
invocation (`n = 1` discharged by `rfl`), and the second build returns the
cached result with no handler invocation and no state change. -/
theorem build_twice_memoized_witness :
    buildResolvedTarget (setBuilt sampleState "a" sampleRT) "a"
      = (Except.ok sampleRT, setBuilt sampleState "a" sampleRT, 0) :=
  (build_twice_memoized sampleState "a" sampleRT
    (setBuilt sampleState "a" sampleRT) 1 rfl).1

/-- C5: `run` of a target first builds it; a build failure is returned
unchanged with the run entrypoint never invoked; on build success the run
entrypoint is invoked when present, the target is `NotRunnable` when
absent, and the entrypoint's outcome propagates verbatim. -/
theorem run_implies_build (s : EvalState) (target : String) :
    (∀ e s1 n, buildResolvedTarget s target = (Except.error e, s1, n) →
      runResolvedTarget s target = (Except.error e, s1, false))
    ∧ (∀ rt s1 n, buildResolvedTarget s target = (Except.ok rt, s1, n) →
        runResolvedTarget s target = (rt.run, s1, rt.run_entry.isSome)
        ∧ (rt.run_entry = none → rt.run = Except.error "NotRunnable")
        ∧ (∀ res, rt.run_entry = some res → rt.run = res)) := by
  constructor
  · intro e s1 n h
    simp [runResolvedTarget, h]
  · intro rt s1 n h
    refine ⟨by simp [runResolvedTarget, h], ?_, ?_⟩
    · intro hn
      simp [ResolvedTarget.run, hn]
    · intro res hr
      simp [ResolvedTarget.run, hr]

/-- Witness for C5: running an unregistered target propagates the build
error without invoking any run entrypoint; running `a` builds it and then
fails with `NotRunnable` since its artifact has no run entrypoint. -/
theorem run_implies_build_witness :
    runResolvedTarget sampleState "nonexistent"
      = (Except.error "target nonexistent is not registered", sampleState, false)
    ∧ runResolvedTarget sampleState "a"
      = (Except.error "NotRunnable", setBuilt sampleState "a" sampleRT, false) := by
  refine ⟨(run_implies_build sampleState "nonexistent").1
    "target nonexistent is not registered" sampleState 0 rfl, ?_⟩
  have h := (run_implies_build sampleState "a").2 sampleRT
    (setBuilt sampleState "a" sampleRT) 1 rfl
  exact h.1.trans rfl

end PyOxidizer
